import Mathlib

set_option maxRecDepth 40000

/-!
Shallow embedding of `battery_cycle_count/main.py` (classes `Base` and `Cycles`).

Modelling conventions:
* A parsed csv row (date, battery_saver, start_percent, end_percent) is `Row`;
  dates are day numbers (`ℤ`), obtained from a civil date via `daysFromCivil`,
  so that differences of dates are exact calendar-day differences, as for
  `pandas` parsed dates / `datetime.date`.
* The `pandas.DataFrame` held in `self._df` after `Base.__init__` is a
  `List DfRow`: the retained rows together with the derived `percent` column
  and the derived `days` column (`Option ℤ`, `none` standing for `NaN`).
* Python float arithmetic is idealized as exact rational arithmetic (`ℚ`),
  following the "within floating-point tolerance" reading of the spec.  The
  helpers `pyDiv`, `pyMul`, `pySub` are kernel-computable implementations of
  the field operations on `ℚ` (the `Rat.mul` etc. of the library are
  `@[irreducible]`, which would block evaluation by `decide`); the bridge
  lemmas `pyDiv_eq`, `pyMul_eq`, `pySub_eq` identify them with `/`, `*`, `-`.
* the Python `round(x, 2)` (round-half-to-even at 2 decimal digits) is
  `round2`; the Python `int(x)` (truncation toward zero) is `ratTrunc`.
* A Python exception is an `Except PyErr` result: `ZeroDivisionError` for a
  zero divisor, `IndexError` for `iloc` on an empty frame.
-/

/-- Kernel-computable division on `ℚ` (agrees with `/`, see `pyDiv_eq`). -/
def pyDiv (a b : ℚ) : ℚ := Rat.divInt (a.num * (b.den : ℤ)) (b.num * (a.den : ℤ))

/-- Kernel-computable multiplication on `ℚ` (agrees with `*`, see `pyMul_eq`). -/
def pyMul (a b : ℚ) : ℚ := Rat.divInt (a.num * b.num) ((a.den : ℤ) * (b.den : ℤ))

/-- Kernel-computable subtraction on `ℚ` (agrees with `-`, see `pySub_eq`). -/
def pySub (a b : ℚ) : ℚ := Rat.divInt (a.num * (b.den : ℤ) - b.num * (a.den : ℤ)) ((a.den : ℤ) * (b.den : ℤ))

/-- Kernel-computable floor of a rational (agrees with `Int.floor`). -/
def ratFloor (q : ℚ) : ℤ := q.num / q.den

/-- Kernel-computable ceiling of a rational (agrees with `Int.ceil`). -/
def ratCeil (q : ℚ) : ℤ := -(ratFloor (-q))

/-- Truncation toward zero, the semantics of the Python `int()` on a float. -/
def ratTrunc (q : ℚ) : ℤ := if q < 0 then ratCeil q else ratFloor q

/-- Round a rational to the nearest integer, ties to even: the semantics of
the Python builtin `round` (ties-to-even rounding).  The comparisons of the
fractional part `q - n` with `1/2` are expressed on numerator/denominator to
stay kernel-computable. -/
def roundHalfEven (q : ℚ) : ℤ :=
  if 2 * q.num < (2 * ratFloor q + 1) * (q.den : ℤ) then ratFloor q
  else if (2 * ratFloor q + 1) * (q.den : ℤ) < 2 * q.num then ratFloor q + 1
  else if ratFloor q % 2 = 0 then ratFloor q else ratFloor q + 1

/-- The Python `round(x, 2)`: round to two decimal digits, ties to even. -/
def round2 (q : ℚ) : ℚ := pyDiv ((roundHalfEven (pyMul q 100) : ℤ) : ℚ) 100

/-- Gregorian leap-year test. -/
def isLeap (y : ℕ) : Bool := y % 4 == 0 && (y % 100 != 0 || y % 400 == 0)

/-- Number of days of month `m` in year `y` (Gregorian). -/
def daysInMonth (y m : ℕ) : ℕ :=
  if m = 2 then (if isLeap y then 29 else 28)
  else if m = 4 ∨ m = 6 ∨ m = 9 ∨ m = 11 then 30 else 31

/-- Day number of the civil date `y-m-d` (days since the epoch of the calendar),
the standard civil-calendar day count for CE dates; only differences of
day numbers are ever used. -/
def daysFromCivil (y m d : ℕ) : ℤ :=
  let yy := if m ≤ 2 then y - 1 else y
  let mm := if m ≤ 2 then m + 9 else m - 3
  let doy := (153 * mm + 2) / 5 + (d - 1)
  ((365 * yy + yy / 4 - yy / 100 + yy / 400 + doy : ℕ) : ℤ)

/-- A civil calendar date, for modelling `datetime.date` where actual
year/month/day structure matters (`relativedelta(years=...)`). -/
structure CivilDate where
  y : ℕ
  m : ℕ
  d : ℕ
deriving DecidableEq

/-- Model of the `dateutil` expression `today + relativedelta(years=years)`: same month
and day in year `y + years`, with the day clamped to the length of the
target month (Feb 29 becomes Feb 28 in a non-leap target year). -/
def addYears (t : CivilDate) (years : ℕ) : CivilDate :=
  ⟨t.y + years, t.m, min t.d (daysInMonth (t.y + years) t.m)⟩

/-- Model of `(today + relativedelta(years=years) - today).days` from
`Cycles.get_cycle_prediction` (main.py line 141): the exact calendar-day
count of the horizon, leap years accounted for. -/
def yearSpanDays (t : CivilDate) (years : ℕ) : ℤ :=
  daysFromCivil (addYears t years).y (addYears t years).m (addYears t years).d -
    daysFromCivil t.y t.m t.d

/-- One parsed csv row: `date,battery_saver,start_percent,end_percent`. -/
structure Row where
  date : ℤ
  battery_saver : ℤ
  start_percent : ℤ
  end_percent : ℤ
deriving DecidableEq

/-- One row of the constructed DataFrame: the csv columns plus the derived
`percent` and `days` columns (`none` models the `NaN` of the last row). -/
structure DfRow where
  date : ℤ
  battery_saver : ℤ
  start_percent : ℤ
  end_percent : ℤ
  percent : ℤ
  days : Option ℤ
deriving DecidableEq

/-- Model of `self._df.drop(self._df.tail(1).index)` (main.py line 89):
pandas label-based `drop` removes every row whose index (the date) equals
the index value of the last row; on an empty frame `tail(1).index` is empty
and nothing is dropped. -/
def dropLastByDate (rows : List Row) : List Row :=
  match rows.getLast? with
  | none => rows
  | some r => rows.filter (fun x => !(x.date == r.date))

/-- Model of `Base._create_column_days` (main.py lines 110-124): for each
position the day difference to the date of the next row; for the last position
the `IndexError` branch appends `NaN` (here `none`). -/
def createColumnDays : List ℤ → List (Option ℤ)
  | [] => []
  | [_] => [none]
  | d1 :: d2 :: rest => some (d2 - d1) :: createColumnDays (d2 :: rest)

/-- Assemble one DataFrame row: `percent = end_percent - start_percent`
(main.py line 92) and the given `days` entry (main.py line 93). -/
def mkDfRow (r : Row) (d : Option ℤ) : DfRow :=
  ⟨r.date, r.battery_saver, r.start_percent, r.end_percent,
   r.end_percent - r.start_percent, d⟩

/-- The DataFrame produced by `Base.__init__` (main.py lines 85-93): the
last row is dropped first (when `delete_last_row`), and the derived columns
are computed on the remaining rows. -/
def buildDf (rows : List Row) (delete_last_row : Bool) : List DfRow :=
  let kept := if delete_last_row then dropLastByDate rows else rows
  List.zipWith mkDfRow kept (createColumnDays (kept.map (fun r => r.date)))

/-- State of a `Base` (and hence `Cycles`) object after `__init__`. -/
structure Base where
  _df : List DfRow
  _file : String
deriving DecidableEq

/-- Model of `Base.__init__(file, delete_last_row)`; the csv parsing
(`pd.read_csv`) is abstracted by passing the parsed rows. -/
def initBase (file : String) (rows : List Row) (delete_last_row : Bool) : Base :=
  ⟨buildDf rows delete_last_row, file⟩

/-- Model of `Cycles.__init__(file)` (main.py lines 130-131): calls
`Base.__init__` with the default `delete_last_row=True`. -/
def cyclesInit (file : String) (rows : List Row) : Base :=
  initBase file rows true

/-- Model of `Base.get_df` (main.py lines 95-98). -/
def get_df (b : Base) : List DfRow := b._df

/-- Model of `Base.get_file` (main.py lines 100-103). -/
def get_file (b : Base) : String := b._file

/-- Model of `Base.set_file` (main.py lines 105-108): assigns `self._file`
only. -/
def set_file (b : Base) (file : String) : Base := ⟨b._df, file⟩

/-- The Python exceptions the estimator methods can raise. -/
inductive PyErr where
  | indexError
  | zeroDivisionError
deriving DecidableEq

/-- Model of `Cycles.get_cycle_count` (main.py lines 133-136):
`float(percent column sum / 100)`. -/
def get_cycle_count (b : Base) : ℚ :=
  pyDiv (((b._df.map (fun r => r.percent)).sum : ℤ) : ℚ) 100

/-- Model of `Cycles.get_days` (main.py lines 149-152):
`(self._df.iloc[-1].name - self._df.iloc[0].name).days`; `iloc` on an
empty frame raises `IndexError`. -/
def get_days (b : Base) : Except PyErr ℤ :=
  match b._df.getLast?, b._df.head? with
  | some lastRow, some firstRow => Except.ok (lastRow.date - firstRow.date)
  | _, _ => Except.error PyErr.indexError

/-- Model of `Cycles.get_daily_cycle` (main.py lines 144-147):
`round(self.get_cycle_count() / self.get_days(), 2)`; dividing by a zero
day count raises `ZeroDivisionError`. -/
def get_daily_cycle (b : Base) : Except PyErr ℚ :=
  match get_days b with
  | Except.error e => Except.error e
  | Except.ok d =>
    if d = 0 then Except.error PyErr.zeroDivisionError
    else Except.ok (round2 (pyDiv (get_cycle_count b) ((d : ℤ) : ℚ)))

/-- Model of `Cycles.get_300_cycles_remaining` (main.py lines 164-167):
`round(float(300 - self.get_cycle_count()), 2)`. -/
def get_300_cycles_remaining (b : Base) : ℚ :=
  round2 (pySub 300 (get_cycle_count b))

/-- Model of `Cycles.get_300_cycles_days` (main.py lines 159-162):
`int(self.get_300_cycles_remaining() / self.get_daily_cycle())`; a zero
(rounded) daily rate raises `ZeroDivisionError`, and errors of
`get_daily_cycle` propagate. -/
def get_300_cycles_days (b : Base) : Except PyErr ℤ :=
  match get_daily_cycle b with
  | Except.error e => Except.error e
  | Except.ok dc =>
    if dc = 0 then Except.error PyErr.zeroDivisionError
    else Except.ok (ratTrunc (pyDiv (get_300_cycles_remaining b) dc))

/-- Model of `Cycles.get_300_cycles_date` (main.py lines 154-157):
`datetime.date.today() + datetime.timedelta(days=...)`; `today` is passed
as a day number and the result is a day number. -/
def get_300_cycles_date (b : Base) (today : ℤ) : Except PyErr ℤ :=
  match get_300_cycles_days b with
  | Except.error e => Except.error e
  | Except.ok n => Except.ok (today + n)

/-- Model of `Cycles.get_cycle_prediction` (main.py lines 138-142):
`round(float(date - self.get_cycle_count()) * self.get_daily_cycle(), 2)`
where `date` is the day count of the horizon `today .. today + years`. -/
def get_cycle_prediction (b : Base) (today : CivilDate) (years : ℕ) : Except PyErr ℚ :=
  match get_daily_cycle b with
  | Except.error e => Except.error e
  | Except.ok dc =>
    Except.ok (round2 (pyMul (pySub ((yearSpanDays today years : ℤ) : ℚ) (get_cycle_count b)) dc))

/-- The chronological-log invariant of the spec: dates strictly increasing. -/
def sortedStrict (rows : List Row) : Prop :=
  rows.Pairwise (fun a b => a.date < b.date)

instance (rows : List Row) : Decidable (sortedStrict rows) :=
  List.instDecidablePairwise rows

/-- A valid log in the sense of the data model of the spec: chronological and
with the `battery_saver` flag in {0,1} and percentages in [0, 100]. -/
def validLog (rows : List Row) : Prop :=
  sortedStrict rows ∧ ∀ r ∈ rows,
    (r.battery_saver = 0 ∨ r.battery_saver = 1) ∧
    0 ≤ r.start_percent ∧ r.start_percent ≤ 100 ∧
    0 ≤ r.end_percent ∧ r.end_percent ≤ 100

instance (rows : List Row) : Decidable (validLog rows) := by
  unfold validLog
  exact instDecidableAnd

instance {ε α : Type} [DecidableEq ε] [DecidableEq α] : DecidableEq (Except ε α) := fun a b =>
  match a, b with
  | Except.error e1, Except.error e2 =>
    if h : e1 = e2 then Decidable.isTrue (by rw [h])
    else Decidable.isFalse (by intro hc; cases hc; exact h rfl)
  | Except.error _, Except.ok _ => Decidable.isFalse (by intro hc; cases hc)
  | Except.ok _, Except.error _ => Decidable.isFalse (by intro hc; cases hc)
  | Except.ok a1, Except.ok a2 =>
    if h : a1 = a2 then Decidable.isTrue (by rw [h])
    else Decidable.isFalse (by intro hc; cases hc; exact h rfl)

/-- The five-row example input of the class docstring and of the
example scenario (main.py lines 44-50). -/
def exampleRows : List Row :=
  [⟨daysFromCivil 2022 3 29, 0, 0, 70⟩,
   ⟨daysFromCivil 2022 4 2, 1, 25, 50⟩,
   ⟨daysFromCivil 2022 4 6, 1, 29, 50⟩,
   ⟨daysFromCivil 2022 4 9, 1, 30, 50⟩,
   ⟨daysFromCivil 2022 4 12, 1, 34, 60⟩]

/-- The example log loaded through `Cycles` (so `delete_last_row=True`). -/
def exampleLog : Base := cyclesInit "battery.csv" exampleRows

/-- A raw input whose retained table has exactly 2 rows bearing identical
dates: the two first rows share a date and the chronologically last row is
dropped by construction. -/
def sameDateRows : List Row :=
  [⟨daysFromCivil 2022 5 1, 0, 0, 50⟩,
   ⟨daysFromCivil 2022 5 1, 0, 10, 60⟩,
   ⟨daysFromCivil 2022 5 3, 0, 20, 70⟩]

/-- The log with two retained rows of identical date. -/
def sameDateLog : Base := cyclesInit "battery.csv" sameDateRows

/-- A valid 302-row input whose retained 301 rows accumulate 300.5 cycles
over 300 days: daily rate rounds to 1.00 and the remaining-to-300 count is
-0.5, strictly between -1 and 0. -/
def bigRows : List Row :=
  (List.range 302).map (fun i =>
    if i < 300 then ⟨(i : ℤ), 0, 0, 100⟩
    else if i = 300 then ⟨(i : ℤ), 0, 0, 50⟩
    else ⟨(i : ℤ), 0, 0, 0⟩)

/-- The over-300-cycles log loaded through `Cycles`. -/
def bigLog : Base := cyclesInit "battery.csv" bigRows

/-- A valid input whose retained rows span 1000 days with exactly 1 cycle:
the daily rate 0.001 rounds to 0.00 at two decimals. -/
def smallRateRows : List Row :=
  [⟨0, 0, 0, 100⟩, ⟨1000, 0, 0, 0⟩, ⟨1001, 0, 0, 0⟩]

/-- The tiny-rate log loaded through `Cycles`. -/
def smallRateLog : Base := cyclesInit "battery.csv" smallRateRows

/-! Bridge lemmas: the kernel-computable rational helpers agree with the
field operations of `ℚ`, and the rounding helpers with `Int.floor` and
`Int.ceil`. -/

lemma den_cast_ne (a : ℚ) : ((a.den : ℚ)) ≠ 0 := by
  simp [a.den_nz]

lemma den_cast_pos (a : ℚ) : (0 : ℚ) < (a.den : ℚ) := by
  have := a.den_nz
  positivity

lemma num_eq_mul_den (a : ℚ) : (a.num : ℚ) = a * (a.den : ℚ) := by
  have h := Rat.num_div_den a
  rw [div_eq_iff (den_cast_ne a)] at h
  exact h

lemma pyDiv_eq (a b : ℚ) : pyDiv a b = a / b := by
  unfold pyDiv
  rw [Rat.divInt_eq_div]
  push_cast
  by_cases hb : b.num = 0
  · have hb0 : b = 0 := Rat.num_eq_zero.mp hb
    simp [hb, hb0]
  · have hbq : ((b.num : ℚ)) ≠ 0 := by exact_mod_cast hb
    have hb0 : b ≠ 0 := fun hc => hb (by simp [hc])
    have hden : ((b.num : ℚ)) * (a.den : ℚ) ≠ 0 := mul_ne_zero hbq (den_cast_ne a)
    rw [div_eq_div_iff hden hb0, num_eq_mul_den a, num_eq_mul_den b]
    ring

lemma pySub_eq (a b : ℚ) : pySub a b = a - b := by
  unfold pySub
  rw [Rat.divInt_eq_div]
  push_cast
  have hden : ((a.den : ℚ)) * (b.den : ℚ) ≠ 0 := mul_ne_zero (den_cast_ne a) (den_cast_ne b)
  rw [div_eq_iff hden, num_eq_mul_den a, num_eq_mul_den b]
  ring

lemma pyMul_eq (a b : ℚ) : pyMul a b = a * b := by
  unfold pyMul
  rw [Rat.divInt_eq_div]
  push_cast
  have hden : ((a.den : ℚ)) * (b.den : ℚ) ≠ 0 := mul_ne_zero (den_cast_ne a) (den_cast_ne b)
  rw [div_eq_iff hden, num_eq_mul_den a, num_eq_mul_den b]
  ring

lemma ratFloor_eq (q : ℚ) : ratFloor q = ⌊q⌋ := Rat.floor_def.symm

lemma ratCeil_eq (q : ℚ) : ratCeil q = ⌈q⌉ := by
  unfold ratCeil
  rw [ratFloor_eq, Int.floor_neg, neg_neg]

lemma ratTrunc_nonpos (q : ℚ) (h : q < 0) : ratTrunc q ≤ 0 := by
  unfold ratTrunc
  rw [if_pos h, ratCeil_eq]
  exact Int.ceil_le.mpr (by exact_mod_cast le_of_lt h)

lemma ratTrunc_neg (q : ℚ) (h : q ≤ -1) : ratTrunc q < 0 := by
  have hq : q < 0 := lt_of_le_of_lt h (by norm_num)
  unfold ratTrunc
  rw [if_pos hq, ratCeil_eq]
  have : ⌈q⌉ ≤ -1 := Int.ceil_le.mpr (by exact_mod_cast h)
  omega

lemma twice_num_lt_iff (q : ℚ) (m : ℤ) :
    (2 * q.num < m * (q.den : ℤ)) ↔ 2 * q < (m : ℚ) := by
  constructor
  · intro h
    have h1 : ((2 * q.num : ℤ) : ℚ) < ((m * (q.den : ℤ) : ℤ) : ℚ) := by exact_mod_cast h
    push_cast at h1
    rw [num_eq_mul_den] at h1
    have h2 : (2 * q) * (q.den : ℚ) < (m : ℚ) * (q.den : ℚ) := by ring_nf; ring_nf at h1; linarith
    exact lt_of_mul_lt_mul_right h2 (le_of_lt (den_cast_pos q))
  · intro h
    have h2 : (2 * q) * (q.den : ℚ) < (m : ℚ) * (q.den : ℚ) :=
      mul_lt_mul_of_pos_right h (den_cast_pos q)
    rw [show (2 * q) * (q.den : ℚ) = 2 * (q * (q.den : ℚ)) from by ring,
        ← num_eq_mul_den] at h2
    exact_mod_cast h2

lemma twice_num_gt_iff (q : ℚ) (m : ℤ) :
    (m * (q.den : ℤ) < 2 * q.num) ↔ (m : ℚ) < 2 * q := by
  constructor
  · intro h
    have h1 : ((m * (q.den : ℤ) : ℤ) : ℚ) < ((2 * q.num : ℤ) : ℚ) := by exact_mod_cast h
    push_cast at h1
    rw [num_eq_mul_den] at h1
    have h2 : (m : ℚ) * (q.den : ℚ) < (2 * q) * (q.den : ℚ) := by ring_nf; ring_nf at h1; linarith
    exact lt_of_mul_lt_mul_right h2 (le_of_lt (den_cast_pos q))
  · intro h
    have h2 : (m : ℚ) * (q.den : ℚ) < (2 * q) * (q.den : ℚ) :=
      mul_lt_mul_of_pos_right h (den_cast_pos q)
    rw [show (2 * q) * (q.den : ℚ) = 2 * (q * (q.den : ℚ)) from by ring,
        ← num_eq_mul_den] at h2
    exact_mod_cast h2

lemma roundHalfEven_close (q : ℚ) : |(roundHalfEven q : ℚ) - q| ≤ 1/2 := by
  unfold roundHalfEven
  have h1 : ((ratFloor q : ℤ) : ℚ) ≤ q := by rw [ratFloor_eq]; exact Int.floor_le q
  have h2 : q < ((ratFloor q : ℤ) : ℚ) + 1 := by rw [ratFloor_eq]; exact Int.lt_floor_add_one q
  split_ifs with hc1 hc2 hc3
  · have hlt := (twice_num_lt_iff q (2 * ratFloor q + 1)).mp hc1
    push_cast at hlt
    rw [abs_le]
    constructor <;> linarith
  · have hgt := (twice_num_gt_iff q (2 * ratFloor q + 1)).mp hc2
    push_cast at hgt
    push_cast
    rw [abs_le]
    constructor <;> linarith
  · have hge : ((2 * ratFloor q + 1 : ℤ) : ℚ) ≤ 2 * q :=
      not_lt.mp (fun hc => hc1 ((twice_num_lt_iff q (2 * ratFloor q + 1)).mpr hc))
    have hle : 2 * q ≤ ((2 * ratFloor q + 1 : ℤ) : ℚ) :=
      not_lt.mp (fun hc => hc2 ((twice_num_gt_iff q (2 * ratFloor q + 1)).mpr hc))
    push_cast at hge hle
    rw [abs_le]
    constructor <;> linarith
  · have hge : ((2 * ratFloor q + 1 : ℤ) : ℚ) ≤ 2 * q :=
      not_lt.mp (fun hc => hc1 ((twice_num_lt_iff q (2 * ratFloor q + 1)).mpr hc))
    have hle : 2 * q ≤ ((2 * ratFloor q + 1 : ℤ) : ℚ) :=
      not_lt.mp (fun hc => hc2 ((twice_num_gt_iff q (2 * ratFloor q + 1)).mpr hc))
    push_cast at hge hle
    push_cast
    rw [abs_le]
    constructor <;> linarith

lemma round2_eq (q : ℚ) : round2 q = ((roundHalfEven (q * 100) : ℤ) : ℚ) / 100 := by
  unfold round2
  rw [pyMul_eq, pyDiv_eq]

lemma round2_close (q : ℚ) : |round2 q - q| ≤ 1/200 := by
  have h := roundHalfEven_close (q * 100)
  have e : ((roundHalfEven (q * 100) : ℤ) : ℚ)/100 - q =
      (((roundHalfEven (q * 100) : ℤ) : ℚ) - q * 100)/100 := by ring
  rw [round2_eq, e, abs_div, show |(100 : ℚ)| = 100 from by norm_num]
  linarith

/-! List lemmas about the DataFrame construction. -/

lemma createColumnDays_length : ∀ (l : List ℤ), (createColumnDays l).length = l.length
  | [] => rfl
  | [_] => rfl
  | d1 :: d2 :: rest => by
    rw [show createColumnDays (d1 :: d2 :: rest) =
          some (d2 - d1) :: createColumnDays (d2 :: rest) from rfl]
    simp [createColumnDays_length (d2 :: rest)]

lemma createColumnDays_ne_nil (d : ℤ) (l : List ℤ) : createColumnDays (d :: l) ≠ [] := by
  cases l <;> simp [createColumnDays]

lemma createColumnDays_getLast : ∀ (d : ℤ) (l : List ℤ),
    (createColumnDays (d :: l)).getLast? = some none
  | _, [] => rfl
  | d, d2 :: rest => by
    rw [show createColumnDays (d :: d2 :: rest) =
          some (d2 - d) :: createColumnDays (d2 :: rest) from rfl]
    cases h : createColumnDays (d2 :: rest) with
    | nil => exact absurd h (createColumnDays_ne_nil d2 rest)
    | cons x xs =>
      rw [List.getLast?_cons_cons, ← h]
      exact createColumnDays_getLast d2 rest

lemma createColumnDays_dropLast_isSome : ∀ (l : List ℤ),
    ∀ o ∈ (createColumnDays l).dropLast, o.isSome = true
  | [] => by simp [createColumnDays]
  | [d] => by simp [createColumnDays]
  | d1 :: d2 :: rest => by
    intro o ho
    rw [show createColumnDays (d1 :: d2 :: rest) =
          some (d2 - d1) :: createColumnDays (d2 :: rest) from rfl] at ho
    cases h : createColumnDays (d2 :: rest) with
    | nil => exact absurd h (createColumnDays_ne_nil d2 rest)
    | cons x xs =>
      rw [h, List.dropLast_cons₂] at ho
      rcases List.mem_cons.mp ho with h1 | h1
      · rw [h1]; rfl
      · exact createColumnDays_dropLast_isSome (d2 :: rest) o (by rw [h]; exact h1)

lemma zipWith_fst_map {α β γ : Type} (g : α → γ) :
    ∀ (l1 : List α) (l2 : List β), l1.length = l2.length →
      List.zipWith (fun a _ => g a) l1 l2 = l1.map g
  | [], _, _ => by simp
  | _ :: _, [], h => by simp at h
  | a :: t1, b :: t2, h => by
    simp only [List.zipWith, List.map]
    rw [zipWith_fst_map g t1 t2 (by simpa using h)]

lemma zipWith_snd_id {α β : Type} :
    ∀ (l1 : List α) (l2 : List β), l1.length = l2.length →
      List.zipWith (fun _ b => b) l1 l2 = l2
  | [], [], _ => by simp
  | [], _ :: _, h => by simp at h
  | _ :: _, [], h => by simp at h
  | a :: t1, b :: t2, h => by
    simp only [List.zipWith]
    rw [zipWith_snd_id t1 t2 (by simpa using h)]

lemma buildDf_true (rows : List Row) :
    buildDf rows true = List.zipWith mkDfRow (dropLastByDate rows)
      (createColumnDays ((dropLastByDate rows).map (fun r => r.date))) := rfl

lemma buildDf_len_aux (rows : List Row) :
    (dropLastByDate rows).length =
      (createColumnDays ((dropLastByDate rows).map (fun r => r.date))).length := by
  rw [createColumnDays_length, List.length_map]

lemma buildDf_map_date (rows : List Row) :
    (buildDf rows true).map (fun r => r.date) =
      (dropLastByDate rows).map (fun r => r.date) := by
  rw [buildDf_true, List.map_zipWith]
  exact zipWith_fst_map (fun r => r.date) _ _ (buildDf_len_aux rows)

lemma buildDf_map_days (rows : List Row) :
    (buildDf rows true).map (fun r => r.days) =
      createColumnDays ((dropLastByDate rows).map (fun r => r.date)) := by
  rw [buildDf_true, List.map_zipWith]
  exact zipWith_snd_id _ _ (buildDf_len_aux rows)

lemma buildDf_percent_col (rows : List Row) :
    (buildDf rows true).map (fun r => r.percent) =
      (buildDf rows true).map (fun r => r.end_percent - r.start_percent) := by
  rw [buildDf_true, List.map_zipWith, List.map_zipWith]
  rfl

lemma head_le_getLast_of_sorted : ∀ (l : List ℤ), l.Pairwise (fun a b => a < b) →
    ∀ a b, l.head? = some a → l.getLast? = some b → a ≤ b
  | [], _, a, b, ha, _ => by simp at ha
  | [x], _, a, b, ha, hb => by
    simp at ha hb
    omega
  | x :: y :: t, hp, a, b, ha, hb => by
    have hax : a = x := by simpa using ha.symm
    rw [List.getLast?_cons_cons] at hb
    have hxy : x < y := (List.pairwise_cons.mp hp).1 y (by simp)
    have hyb : y ≤ b :=
      head_le_getLast_of_sorted (y :: t) (List.pairwise_cons.mp hp).2 y b rfl hb
    omega

lemma dropLastByDate_pairwise (rows : List Row) (hs : sortedStrict rows) :
    (dropLastByDate rows).Pairwise (fun a b => a.date < b.date) := by
  unfold dropLastByDate
  cases rows.getLast? with
  | none => exact hs
  | some r => exact List.Pairwise.filter _ hs

/-- C1 counterexample: on the five-row example input with
`delete_last_row=true`, `get_cycle_count()` does not return 1.46 (the
fourth retained row contributes `50 - 30 = 20`, not 30, so the sum of the
percent column is 136, not 146). -/
theorem c1_example_counterexample : get_cycle_count exampleLog ≠ 146/100 := by
  rw [show (146 : ℚ)/100 = Rat.divInt 146 100 from by rw [Rat.divInt_eq_div]; norm_num]
  decide

/-- C1 (amended): for the five-row example input loaded with
`delete_last_row=true`, construction retains exactly 4 rows (the
chronologically last one, 2022-04-12, is dropped), `get_cycle_count()`
returns 1.36, `get_days()` returns 11, and `get_daily_cycle()` returns
`round(1.36/11, 2) = 0.12`. -/
theorem c1_example_amended :
    (get_df exampleLog).length = 4 ∧
    (get_df exampleLog).map (fun r => r.date) =
      [daysFromCivil 2022 3 29, daysFromCivil 2022 4 2,
       daysFromCivil 2022 4 6, daysFromCivil 2022 4 9] ∧
    get_cycle_count exampleLog = 136/100 ∧
    get_days exampleLog = Except.ok 11 ∧
    get_daily_cycle exampleLog = Except.ok (12/100) ∧
    round2 ((136/100) / 11) = 12/100 := by
  refine ⟨by decide, by decide, ?_, by decide, ?_, ?_⟩
  · rw [show (136 : ℚ)/100 = Rat.divInt 136 100 from by rw [Rat.divInt_eq_div]; norm_num]
    decide
  · rw [show (12 : ℚ)/100 = Rat.divInt 12 100 from by rw [Rat.divInt_eq_div]; norm_num]
    decide
  · rw [show ((136 : ℚ)/100)/11 = Rat.divInt 136 1100 from by
        rw [Rat.divInt_eq_div]; norm_num,
      show (12 : ℚ)/100 = Rat.divInt 12 100 from by rw [Rat.divInt_eq_div]; norm_num]
    decide

/-- C2 counterexample: on the five-row example input with
`delete_last_row=true` it is not the case that every retained row has a
defined `days` value — the last retained row (2022-04-09) has `days = NaN`,
because the code drops the last row before computing the `days` column. -/
theorem c2_days_column_counterexample :
    ¬ (∀ r ∈ get_df exampleLog, (r.days).isSome = true) := by decide

/-- C2 (amended): when a log is constructed with `delete_last_row=true`,
the last row is removed before the derived columns are computed;
consequently every retained row except the last has a defined `days`
value, and the last retained row (when one exists) always has the missing
`days` value. -/
theorem c2_days_column_amended (file : String) (rows : List Row) :
    (∀ r ∈ (get_df (cyclesInit file rows)).dropLast, (r.days).isSome = true) ∧
    (∀ r, (get_df (cyclesInit file rows)).getLast? = some r → r.days = none) := by
  constructor
  · intro r hr
    have hmem : r.days ∈ ((buildDf rows true).map (fun x => x.days)).dropLast := by
      rw [← List.map_dropLast]
      exact List.mem_map_of_mem _ hr
    rw [buildDf_map_days] at hmem
    exact createColumnDays_dropLast_isSome _ _ hmem
  · intro r hr
    have h2 : ((buildDf rows true).map (fun x => x.days)).getLast? = some r.days := by
      rw [List.getLast?_map, show (buildDf rows true).getLast? = some r from hr]
      rfl
    rw [buildDf_map_days] at h2
    cases hdl : (dropLastByDate rows).map (fun r => r.date) with
    | nil => rw [hdl] at h2; simp [createColumnDays] at h2
    | cons d ds =>
      rw [hdl, createColumnDays_getLast] at h2
      exact (Option.some.inj h2).symm

/-- C2 witness: the amended statement applied to the example input — the
first retained row has a defined `days` value and the last retained row
has the missing one. -/
theorem c2_days_column_witness :
    (((⟨daysFromCivil 2022 3 29, 0, 0, 70, 70, some 4⟩ : DfRow)).days).isSome = true ∧
    ((⟨daysFromCivil 2022 4 9, 1, 30, 50, 20, none⟩ : DfRow)).days = none := by
  constructor
  · exact (c2_days_column_amended "battery.csv" exampleRows).1 _ (by decide)
  · exact (c2_days_column_amended "battery.csv" exampleRows).2 _ (by decide)

/-- C3: for every valid log with at least 2 retained rows,
`get_cycle_count()` equals the sum of `end_percent - start_percent` over
all retained rows, divided by 100, exactly. -/
theorem c3_cycle_count_sum (file : String) (rows : List Row)
    (hv : validLog rows) (h2 : 2 ≤ (get_df (cyclesInit file rows)).length) :
    get_cycle_count (cyclesInit file rows) =
      ((((get_df (cyclesInit file rows)).map
          (fun r => r.end_percent - r.start_percent)).sum : ℤ) : ℚ) / 100 := by
  unfold get_cycle_count
  rw [pyDiv_eq,
    show (cyclesInit file rows)._df = buildDf rows true from rfl,
    show get_df (cyclesInit file rows) = buildDf rows true from rfl,
    buildDf_percent_col]

/-- C3 witness: the sum property instantiated on the example input. -/
theorem c3_cycle_count_sum_witness :
    get_cycle_count (cyclesInit "battery.csv" exampleRows) =
      ((((get_df (cyclesInit "battery.csv" exampleRows)).map
          (fun r => r.end_percent - r.start_percent)).sum : ℤ) : ℚ) / 100 :=
  c3_cycle_count_sum "battery.csv" exampleRows (by decide) (by decide)

/-- C4: for every log, `get_daily_cycle()` returns
`round(get_cycle_count() / get_days(), 2)` when `get_days()` is nonzero,
and raises `ZeroDivisionError` exactly when `get_days()` is 0; a log whose
retained table has exactly 2 rows bearing identical dates exhibits the
error. -/
theorem c4_daily_cycle_division (b : Base) (d : ℤ) (hd : get_days b = Except.ok d) :
    (d ≠ 0 → get_daily_cycle b =
      Except.ok (round2 (get_cycle_count b / (d : ℚ)))) ∧
    (get_daily_cycle b = Except.error PyErr.zeroDivisionError ↔ d = 0) ∧
    ((get_df sameDateLog).length = 2 ∧
     (get_df sameDateLog).map (fun r => r.date) =
       [daysFromCivil 2022 5 1, daysFromCivil 2022 5 1] ∧
     get_days sameDateLog = Except.ok 0 ∧
     get_daily_cycle sameDateLog = Except.error PyErr.zeroDivisionError) := by
  have e : get_daily_cycle b =
      if d = 0 then Except.error PyErr.zeroDivisionError
      else Except.ok (round2 (pyDiv (get_cycle_count b) ((d : ℤ) : ℚ))) := by
    unfold get_daily_cycle
    rw [hd]
  refine ⟨?_, ?_, by decide, by decide, by decide, by decide⟩
  · intro hne
    rw [e, if_neg hne, pyDiv_eq]
  · rw [e]
    by_cases h0 : d = 0
    · rw [if_pos h0]
      exact ⟨fun _ => h0, fun _ => rfl⟩
    · rw [if_neg h0]
      constructor
      · intro hc
        exact Except.noConfusion hc
      · intro hc
        exact absurd hc h0

/-- C4 witness: the division-by-zero case on the two-identical-dates log. -/
theorem c4_daily_cycle_division_witness :
    get_daily_cycle sameDateLog = Except.error PyErr.zeroDivisionError :=
  ((c4_daily_cycle_division sameDateLog 0 (by decide)).2.1).mpr rfl

/-- C5: for every log with at least one retained row, `get_days()` returns
the exact day difference between the dates of the last and the first
retained rows, and that difference is nonnegative when the input is sorted
ascending by date. -/
theorem c5_days_span (file : String) (rows : List Row) (f l : DfRow)
    (hf : (get_df (cyclesInit file rows)).head? = some f)
    (hl : (get_df (cyclesInit file rows)).getLast? = some l) :
    get_days (cyclesInit file rows) = Except.ok (l.date - f.date) ∧
    (sortedStrict rows → 0 ≤ l.date - f.date) := by
  constructor
  · unfold get_days
    rw [show (cyclesInit file rows)._df = buildDf rows true from rfl,
      show (buildDf rows true).getLast? = some l from hl,
      show (buildDf rows true).head? = some f from hf]
  · intro hs
    have hkept := dropLastByDate_pairwise rows hs
    have hp : ((buildDf rows true).map (fun r => r.date)).Pairwise (fun a b => a < b) := by
      rw [buildDf_map_date]
      simp only [List.pairwise_map]
      exact hkept
    have h1 : ((buildDf rows true).map (fun r => r.date)).head? = some f.date := by
      rw [List.head?_map, show (buildDf rows true).head? = some f from hf]
      rfl
    have h2 : ((buildDf rows true).map (fun r => r.date)).getLast? = some l.date := by
      rw [List.getLast?_map, show (buildDf rows true).getLast? = some l from hl]
      rfl
    have := head_le_getLast_of_sorted _ hp f.date l.date h1 h2
    omega

/-- C5 witness: the day-span property instantiated on the example input,
whose retained rows run from 2022-03-29 to 2022-04-09, giving 11 days. -/
theorem c5_days_span_witness :
    get_days (cyclesInit "battery.csv" exampleRows) = Except.ok 11 ∧ (0 : ℤ) ≤ 11 := by
  have h := c5_days_span "battery.csv" exampleRows
    ⟨daysFromCivil 2022 3 29, 0, 0, 70, 70, some 4⟩
    ⟨daysFromCivil 2022 4 9, 1, 30, 50, 20, none⟩ (by decide) (by decide)
  refine ⟨?_, h.2 (by decide)⟩
  rw [h.1]
  decide

/-- C6: for every log, `get_300_cycles_remaining()` is
`round(300 - get_cycle_count(), 2)`, so adding `get_cycle_count()` gives
300 up to the rounding tolerance 1/200; and the value is negative on a log
that has exceeded 300 cycles (a valid output, not an error). -/
theorem c6_remaining_to_300 (b : Base) :
    get_300_cycles_remaining b = round2 (300 - get_cycle_count b) ∧
    |get_300_cycles_remaining b + get_cycle_count b - 300| ≤ 1/200 ∧
    (300 < get_cycle_count bigLog ∧ get_300_cycles_remaining bigLog < 0) := by
  have e : get_300_cycles_remaining b = round2 (300 - get_cycle_count b) := by
    unfold get_300_cycles_remaining
    rw [pySub_eq]
  refine ⟨e, ?_, by decide, by decide⟩
  have h := round2_close (300 - get_cycle_count b)
  rw [e, show round2 (300 - get_cycle_count b) + get_cycle_count b - 300 =
        round2 (300 - get_cycle_count b) - (300 - get_cycle_count b) from by ring]
  exact h

/-- C7 counterexample: on `bigLog`, `get_300_cycles_remaining()` is
negative (-0.5) and `get_daily_cycle()` is positive (1.0), yet
`get_300_cycles_days()` returns 0, not a negative number — the Python
`int()` truncates toward zero — and `get_300_cycles_date()` is today, not
a past date. -/
theorem c7_truncation_counterexample :
    get_300_cycles_remaining bigLog < 0 ∧
    get_daily_cycle bigLog = Except.ok 1 ∧
    get_300_cycles_days bigLog = Except.ok 0 ∧
    get_300_cycles_date bigLog 0 = Except.ok 0 := by decide

/-- C7 (amended): for every log with a positive daily rate,
`get_300_cycles_days()` is the truncation toward zero of
`get_300_cycles_remaining() / get_daily_cycle()`: when the remaining count
is negative the result is nonpositive — and negative (a past projection)
as soon as the remaining count is at most minus the daily rate — and
`get_300_cycles_date()` is today plus that signed day count. -/
theorem c7_days_to_300 (b : Base) (today : ℤ) (dc : ℚ)
    (hdc : get_daily_cycle b = Except.ok dc) (hpos : 0 < dc) :
    get_300_cycles_days b =
      Except.ok (ratTrunc (get_300_cycles_remaining b / dc)) ∧
    (get_300_cycles_remaining b < 0 →
      ratTrunc (get_300_cycles_remaining b / dc) ≤ 0) ∧
    (get_300_cycles_remaining b ≤ -dc →
      ratTrunc (get_300_cycles_remaining b / dc) < 0) ∧
    get_300_cycles_date b today =
      Except.ok (today + ratTrunc (get_300_cycles_remaining b / dc)) := by
  have hne : dc ≠ 0 := ne_of_gt hpos
  have e : get_300_cycles_days b =
      Except.ok (ratTrunc (pyDiv (get_300_cycles_remaining b) dc)) := by
    unfold get_300_cycles_days
    rw [hdc]
    show (if dc = 0 then Except.error PyErr.zeroDivisionError
          else Except.ok (ratTrunc (pyDiv (get_300_cycles_remaining b) dc))) =
        Except.ok (ratTrunc (pyDiv (get_300_cycles_remaining b) dc))
    rw [if_neg hne]
  rw [pyDiv_eq] at e
  refine ⟨e, ?_, ?_, ?_⟩
  · intro hneg
    exact ratTrunc_nonpos _ (div_neg_of_neg_of_pos hneg hpos)
  · intro hle
    apply ratTrunc_neg
    rw [div_le_iff₀ hpos]
    linarith
  · unfold get_300_cycles_date
    rw [e]

/-- C7 witness: the amended statement applied to `bigLog`, where the
remaining count -0.5 is negative and the truncated quotient is 0. -/
theorem c7_days_to_300_witness :
    get_300_cycles_days bigLog = Except.ok 0 ∧
    ratTrunc (get_300_cycles_remaining bigLog / 1) ≤ 0 := by
  have h := c7_days_to_300 bigLog 0 1 (by decide) (by norm_num)
  refine ⟨?_, h.2.1 (by decide)⟩
  rw [h.1, div_one]
  decide

/-- C8: for every log with a computable daily rate, `get_cycle_prediction`
on a horizon of `years` calendar years equals
`round((calendarDaysInHorizon - get_cycle_count()) * get_daily_cycle(), 2)`
with the exact day count of the horizon (leap years accounted for: one year
from 2024-01-15 is 366 days, from 2023-01-15 it is 365) — and this literal
formula differs from the intuitive `dailyCycleRate * daysInHorizon`. -/
theorem c8_prediction_formula (b : Base) (today : CivilDate) (years : ℕ) (dc : ℚ)
    (hdc : get_daily_cycle b = Except.ok dc) :
    get_cycle_prediction b today years =
      Except.ok (round2 ((((yearSpanDays today years : ℤ) : ℚ) - get_cycle_count b) * dc)) ∧
    yearSpanDays ⟨2024, 1, 15⟩ 1 = 366 ∧
    yearSpanDays ⟨2023, 1, 15⟩ 1 = 365 ∧
    get_cycle_prediction exampleLog ⟨2022, 4, 20⟩ 1 ≠
      Except.ok (round2 ((12/100) * ((yearSpanDays ⟨2022, 4, 20⟩ 1 : ℤ) : ℚ))) := by
  refine ⟨?_, by decide, by decide, ?_⟩
  · unfold get_cycle_prediction
    rw [hdc]
    show Except.ok (round2 (pyMul (pySub ((yearSpanDays today years : ℤ) : ℚ)
          (get_cycle_count b)) dc)) =
        Except.ok (round2 ((((yearSpanDays today years : ℤ) : ℚ) - get_cycle_count b) * dc))
    rw [pySub_eq, pyMul_eq]
  · rw [show yearSpanDays ⟨2022, 4, 20⟩ 1 = 365 from by decide,
      show ((12 : ℚ)/100) * (((365 : ℤ) : ℤ) : ℚ) = Rat.divInt 4380 100 from by
        rw [Rat.divInt_eq_div]; push_cast; norm_num]
    decide

/-- C8 witness: the literal prediction formula instantiated on the example
log over one year from 2022-04-20. -/
theorem c8_prediction_formula_witness :
    get_cycle_prediction exampleLog ⟨2022, 4, 20⟩ 1 =
      Except.ok (round2 ((((yearSpanDays ⟨2022, 4, 20⟩ 1 : ℤ) : ℚ) -
        get_cycle_count exampleLog) * (12/100))) := by
  have hd : get_daily_cycle exampleLog = Except.ok (12/100 : ℚ) := by
    rw [show (12 : ℚ)/100 = Rat.divInt 12 100 from by rw [Rat.divInt_eq_div]; norm_num]
    decide
  exact (c8_prediction_formula exampleLog ⟨2022, 4, 20⟩ 1 (12/100) hd).1

/-- C9: `set_file` changes only the stored file path: the row table and
every estimator result are unchanged, and no reload occurs. -/
theorem c9_set_file_pure (b : Base) (p : String) (today : ℤ) (td : CivilDate) (years : ℕ) :
    get_file (set_file b p) = p ∧
    get_df (set_file b p) = get_df b ∧
    get_cycle_count (set_file b p) = get_cycle_count b ∧
    get_days (set_file b p) = get_days b ∧
    get_daily_cycle (set_file b p) = get_daily_cycle b ∧
    get_300_cycles_remaining (set_file b p) = get_300_cycles_remaining b ∧
    get_300_cycles_days (set_file b p) = get_300_cycles_days b ∧
    get_300_cycles_date (set_file b p) today = get_300_cycles_date b today ∧
    get_cycle_prediction (set_file b p) td years = get_cycle_prediction b td years :=
  ⟨rfl, rfl, rfl, rfl, rfl, rfl, rfl, rfl, rfl⟩

/-- C10: for every log whose `get_days()` is defined,
`get_300_cycles_days()` (and hence `get_300_cycles_date()`) raises
`ZeroDivisionError` exactly when `get_days()` is 0 or the rounded daily
rate `round(get_cycle_count()/get_days(), 2)` is 0.00; in particular the
log spanning 1000 days with one cycle (rate 0.001, rounding to 0.00)
raises it although `get_days() > 0`. -/
theorem c10_zero_rounded_rate (b : Base) (d : ℤ) (today : ℤ)
    (hd : get_days b = Except.ok d) :
    ((get_300_cycles_days b = Except.error PyErr.zeroDivisionError) ↔
      (d = 0 ∨ round2 (get_cycle_count b / (d : ℚ)) = 0)) ∧
    ((get_300_cycles_date b today = Except.error PyErr.zeroDivisionError) ↔
      (d = 0 ∨ round2 (get_cycle_count b / (d : ℚ)) = 0)) ∧
    (get_days smallRateLog = Except.ok 1000 ∧
     get_300_cycles_days smallRateLog = Except.error PyErr.zeroDivisionError) := by
  have edc : get_daily_cycle b =
      if d = 0 then Except.error PyErr.zeroDivisionError
      else Except.ok (round2 (pyDiv (get_cycle_count b) ((d : ℤ) : ℚ))) := by
    unfold get_daily_cycle
    rw [hd]
  by_cases h0 : d = 0
  · have e1 : get_daily_cycle b = Except.error PyErr.zeroDivisionError := by
      rw [edc, if_pos h0]
    have e2 : get_300_cycles_days b = Except.error PyErr.zeroDivisionError := by
      unfold get_300_cycles_days
      rw [e1]
    have e3 : get_300_cycles_date b today = Except.error PyErr.zeroDivisionError := by
      unfold get_300_cycles_date
      rw [e2]
    refine ⟨?_, ?_, by decide, by decide⟩
    · rw [e2]
      exact ⟨fun _ => Or.inl h0, fun _ => rfl⟩
    · rw [e3]
      exact ⟨fun _ => Or.inl h0, fun _ => rfl⟩
  · have e1 : get_daily_cycle b =
        Except.ok (round2 (pyDiv (get_cycle_count b) ((d : ℤ) : ℚ))) := by
      rw [edc, if_neg h0]
    by_cases hr : round2 (pyDiv (get_cycle_count b) ((d : ℤ) : ℚ)) = 0
    · have e2 : get_300_cycles_days b = Except.error PyErr.zeroDivisionError := by
        unfold get_300_cycles_days
        rw [e1]
        show (if round2 (pyDiv (get_cycle_count b) ((d : ℤ) : ℚ)) = 0
              then Except.error PyErr.zeroDivisionError
              else Except.ok (ratTrunc (pyDiv (get_300_cycles_remaining b)
                (round2 (pyDiv (get_cycle_count b) ((d : ℤ) : ℚ)))))) =
            Except.error PyErr.zeroDivisionError
        rw [if_pos hr]
      have e3 : get_300_cycles_date b today = Except.error PyErr.zeroDivisionError := by
        unfold get_300_cycles_date
        rw [e2]
      refine ⟨?_, ?_, by decide, by decide⟩
      · rw [e2]
        refine ⟨fun _ => Or.inr ?_, fun _ => rfl⟩
        rw [← pyDiv_eq]
        exact hr
      · rw [e3]
        refine ⟨fun _ => Or.inr ?_, fun _ => rfl⟩
        rw [← pyDiv_eq]
        exact hr
    · have e2 : get_300_cycles_days b =
          Except.ok (ratTrunc (pyDiv (get_300_cycles_remaining b)
            (round2 (pyDiv (get_cycle_count b) ((d : ℤ) : ℚ))))) := by
        unfold get_300_cycles_days
        rw [e1]
        show (if round2 (pyDiv (get_cycle_count b) ((d : ℤ) : ℚ)) = 0
              then Except.error PyErr.zeroDivisionError
              else Except.ok (ratTrunc (pyDiv (get_300_cycles_remaining b)
                (round2 (pyDiv (get_cycle_count b) ((d : ℤ) : ℚ)))))) =
            Except.ok (ratTrunc (pyDiv (get_300_cycles_remaining b)
              (round2 (pyDiv (get_cycle_count b) ((d : ℤ) : ℚ)))))
        rw [if_neg hr]
      have e3 : get_300_cycles_date b today =
          Except.ok (today + ratTrunc (pyDiv (get_300_cycles_remaining b)
            (round2 (pyDiv (get_cycle_count b) ((d : ℤ) : ℚ))))) := by
        unfold get_300_cycles_date
        rw [e2]
      refine ⟨?_, ?_, by decide, by decide⟩
      · rw [e2]
        constructor
        · intro hc
          exact Except.noConfusion hc
        · intro hor
          rcases hor with h | h
          · exact absurd h h0
          · rw [pyDiv_eq] at hr
            exact absurd h hr
      · rw [e3]
        constructor
        · intro hc
          exact Except.noConfusion hc
        · intro hor
          rcases hor with h | h
          · exact absurd h h0
          · rw [pyDiv_eq] at hr
            exact absurd h hr

/-- C10 witness: the 1000-day one-cycle log has positive `get_days()` and
still raises the division-by-zero condition in `get_300_cycles_days()`. -/
theorem c10_zero_rounded_rate_witness :
    get_300_cycles_days smallRateLog = Except.error PyErr.zeroDivisionError := by
  have h := c10_zero_rounded_rate smallRateLog 1000 0 (by decide)
  refine h.1.mpr (Or.inr ?_)
  rw [← pyDiv_eq]
  decide
